import Mathlib

/-!
Verification of the blog-platform domain layer (entities and use cases).

The Python source is embedded shallowly:
  - strings are Lean strings; Python str.strip, str.lower, len and
    membership are the pyStrip, pyLower, pyLen and pyHasChar primitives
    below, defined over the character list so they reduce in the kernel;
  - UUIDs are natural numbers;
  - datetime.utcnow readings are explicit Nat parameters, one per call
    site, constrained only by clock monotonicity where a theorem needs it;
  - a method that may raise ValueError returns a PyResult carrying, in the
    raised case, the object state observable after the exception
    propagates (the source rolls mutations back before re-raising);
  - repositories are lists of entities; use cases thread that state
    explicitly and return it together with the normal result or the
    propagated exception.
-/

/-- Outcome of a Python method that may raise: either a normal result, or
an exception message together with the object state left behind. -/
inductive PyResult (α : Type) where
  | ok (val : α) : PyResult α
  | raised (msg : String) (state : α) : PyResult α
deriving Repr, DecidableEq

namespace PyResult

/-- The object state after the call, whether it returned or raised. -/
def after {α : Type} : PyResult α → α
  | .ok v => v
  | .raised _ s => s

/-- True when the call returned normally. -/
def isOk {α : Type} : PyResult α → Bool
  | .ok _ => true
  | .raised _ _ => false

end PyResult

/-! ## Python string primitives

Implemented over the character list of the string so that every
definition reduces in the kernel on concrete inputs. -/

/-- Python str.strip with no arguments: drop whitespace at both ends. -/
def pyStrip (s : String) : String :=
  ⟨(((s.data.dropWhile Char.isWhitespace).reverse).dropWhile Char.isWhitespace).reverse⟩

/-- Python str.lower. -/
def pyLower (s : String) : String :=
  ⟨s.data.map Char.toLower⟩

/-- Python len on a str: the number of characters. -/
def pyLen (s : String) : Nat :=
  s.data.length

/-- Python membership test c in s. -/
def pyHasChar (s : String) (c : Char) : Bool :=
  s.data.any (fun d => d = c)

/-- Python str.startswith with a single-character argument. -/
def pyStartsWith (s : String) (c : Char) : Bool :=
  s.data.head? = some c

/-- Python str.endswith with a single-character argument. -/
def pyEndsWith (s : String) (c : Char) : Bool :=
  s.data.getLast? = some c

/-- Python str.split on a single separator character. -/
def splitOnChar (sep : Char) : List Char → List (List Char)
  | [] => [[]]
  | c :: rest =>
    let r := splitOnChar sep rest
    if c = sep then [] :: r
    else
      match r with
      | [] => [[c]]
      | g :: gs => (c :: g) :: gs

/-! ## BlogPost entity (src/domain/entities/blog_post.py) -/

structure BlogPost where
  title : String
  content : String
  id : Nat
  created_at : Nat
  updated_at : Nat
  comment_ids : List Nat
deriving Repr, DecidableEq

namespace BlogPost

/-- BlogPost._validate_title: non-blank after strip, at most 200 chars. -/
def validate_title (title : String) : Except String Unit :=
  if pyStrip title = "" then .error "Title cannot be empty"
  else if pyLen title > 200 then .error "Title cannot exceed 200 characters"
  else .ok ()

/-- BlogPost._validate_content: non-blank after strip. -/
def validate_content (content : String) : Except String Unit :=
  if pyStrip content = "" then .error "Content cannot be empty"
  else .ok ()

/-- BlogPost.__init__ plus __post_init__: validate title then content;
both timestamps are fresh utcnow readings (t0 for created_at, t1 for
updated_at). -/
def make (title content : String) (id t0 t1 : Nat) : Except String BlogPost :=
  match validate_title title with
  | .error e => .error e
  | .ok _ =>
    match validate_content content with
    | .error e => .error e
    | .ok _ =>
      .ok { title := title, content := content, id := id,
            created_at := t0, updated_at := t1, comment_ids := [] }

/-- BlogPost.update_title: assign, validate, set updated_at on success,
roll the assignment back and re-raise on failure. -/
def update_title (p : BlogPost) (new_title : String) (now : Nat) : PyResult BlogPost :=
  let old_title := p.title
  let p1 : BlogPost := { p with title := new_title }
  match validate_title p1.title with
  | .ok _ => .ok { p1 with updated_at := now }
  | .error e => .raised e { p1 with title := old_title }

/-- BlogPost.update_content: assign, validate, set updated_at on success,
roll the assignment back and re-raise on failure. -/
def update_content (p : BlogPost) (new_content : String) (now : Nat) : PyResult BlogPost :=
  let old_content := p.content
  let p1 : BlogPost := { p with content := new_content }
  match validate_content p1.content with
  | .ok _ => .ok { p1 with updated_at := now }
  | .error e => .raised e { p1 with content := old_content }

/-- BlogPost.add_comment_id: reject a duplicate id, otherwise append and
refresh updated_at. -/
def add_comment_id (p : BlogPost) (comment_id : Nat) (now : Nat) : PyResult BlogPost :=
  if comment_id ∈ p.comment_ids then
    .raised "Comment ID already exists for this post" p
  else
    .ok { p with comment_ids := p.comment_ids ++ [comment_id], updated_at := now }

/-- BlogPost.remove_comment_id: reject a missing id, otherwise remove the
first occurrence and refresh updated_at. -/
def remove_comment_id (p : BlogPost) (comment_id : Nat) (now : Nat) : PyResult BlogPost :=
  if comment_id ∈ p.comment_ids then
    .ok { p with comment_ids := p.comment_ids.erase comment_id, updated_at := now }
  else
    .raised "Comment ID not found for this post" p

end BlogPost

/-! ## Comment entity (src/domain/entities/comment.py) -/

structure Comment where
  content : String
  blog_post_id : Nat
  id : Nat
  author_name : String
  author_email : String
  created_at : Nat
  updated_at : Nat
  is_approved : Bool
deriving Repr, DecidableEq

namespace Comment

/-- Comment._validate_content: non-blank after strip, at most 1000 chars. -/
def validate_content (content : String) : Except String Unit :=
  if pyStrip content = "" then .error "Content cannot be empty"
  else if pyLen content > 1000 then .error "Content cannot exceed 1000 characters"
  else .ok ()

/-- Comment._validate_author_name: at most 100 chars. -/
def validate_author_name (author_name : String) : Except String Unit :=
  if pyLen author_name > 100 then .error "Author name cannot exceed 100 characters"
  else .ok ()

/-- Comment._validate_author_email: at most 255 chars, and if non-empty it
must contain an at sign. -/
def validate_author_email (author_email : String) : Except String Unit :=
  if pyLen author_email > 255 then .error "Author email cannot exceed 255 characters"
  else if author_email ≠ "" ∧ ¬ pyHasChar author_email '@' then
    .error "Author email must be a valid email address"
  else .ok ()

/-- Comment.__init__ plus __post_init__: validate content, author name and
author email in order (the blog post id is well-typed here by
construction); timestamps are fresh utcnow readings. -/
def make (content : String) (blog_post_id : Nat) (id : Nat)
    (author_name author_email : String) (t0 t1 : Nat) : Except String Comment :=
  match validate_content content with
  | .error e => .error e
  | .ok _ =>
    match validate_author_name author_name with
    | .error e => .error e
    | .ok _ =>
      match validate_author_email author_email with
      | .error e => .error e
      | .ok _ =>
        .ok { content := content, blog_post_id := blog_post_id, id := id,
              author_name := author_name, author_email := author_email,
              created_at := t0, updated_at := t1, is_approved := true }

/-- Comment.update_content: assign, validate, set updated_at on success,
roll the assignment back and re-raise on failure. -/
def update_content (c : Comment) (new_content : String) (now : Nat) : PyResult Comment :=
  let old_content := c.content
  let c1 : Comment := { c with content := new_content }
  match validate_content c1.content with
  | .ok _ => .ok { c1 with updated_at := now }
  | .error e => .raised e { c1 with content := old_content }

/-- Comment.update_author_info: assign and validate name when given, then
assign and validate email when given, then refresh updated_at; on any
failure both fields are restored before the exception propagates. -/
def update_author_info (c : Comment) (name email : Option String) (now : Nat) :
    PyResult Comment :=
  let old_name := c.author_name
  let old_email := c.author_email
  let step : Except String Comment :=
    match
      (match name with
       | some n =>
         match validate_author_name n with
         | .ok _ => Except.ok { c with author_name := n }
         | .error e => Except.error e
       | none => Except.ok c) with
    | .error e => .error e
    | .ok c1 =>
      match
        (match email with
         | some m =>
           match validate_author_email m with
           | .ok _ => Except.ok { c1 with author_email := m }
           | .error e => Except.error e
         | none => Except.ok c1) with
      | .error e => .error e
      | .ok c2 => .ok { c2 with updated_at := now }
  match step with
  | .ok c2 => .ok c2
  | .error e => .raised e { c with author_name := old_name, author_email := old_email }

/-- Comment.approve: flip is_approved to true and refresh updated_at only
when the comment is not yet approved. -/
def approve (c : Comment) (now : Nat) : Comment :=
  if c.is_approved then c
  else { c with is_approved := true, updated_at := now }

/-- Comment.reject: flip is_approved to false and refresh updated_at only
when the comment is currently approved. -/
def reject (c : Comment) (now : Nat) : Comment :=
  if c.is_approved then { c with is_approved := false, updated_at := now }
  else c

end Comment

/-! ## User entity (src/domain/entities/user.py) -/

structure User where
  username : String
  email : String
  password_hash : String
  id : Nat
  full_name : Option String
  is_active : Bool
  is_superuser : Bool
  created_at : Nat
  updated_at : Nat
deriving Repr, DecidableEq

namespace User

/-- Characters admitted by the username pattern [a-zA-Z0-9_]. -/
def usernameCharOk (c : Char) : Bool := c.isAlphanum || c = '_'

/-- User._validate_username: trims, checks length 3..50, the character
class, and no leading or trailing underscore; on success the trimmed
username is the value stored back into the entity. -/
def validate_username (username : String) : Except String String :=
  if pyStrip username = "" then .error "Username cannot be empty"
  else
    let u := pyStrip username
    if pyLen u < 3 then .error "Username must be at least 3 characters long"
    else if pyLen u > 50 then .error "Username cannot exceed 50 characters"
    else if ¬ u.data.all usernameCharOk then
      .error "Username can only contain letters, numbers, and underscores"
    else if pyStartsWith u '_' ∨ pyEndsWith u '_' then
      .error "Username cannot start or end with underscore"
    else .ok u

/-- Characters admitted by the local part of the email pattern. -/
def localCharOk (c : Char) : Bool :=
  c.isAlphanum || c = '.' || c = '_' || c = '%' || c = '+' || c = '-'

/-- Characters admitted by the domain part of the email pattern. -/
def domainCharOk (c : Char) : Bool := c.isAlphanum || c = '.' || c = '-'

/-- The anchored pattern local@domain.tld: a non-empty run of local
characters, one at sign, a non-empty run of domain characters, a dot, and
at least two letters reaching the end.  Since the tld class excludes
dots, the separating dot of any match is the last dot of the string, so
the pattern is decided against that unique decomposition. -/
def emailFormatOk (s : String) : Bool :=
  match splitOnChar '@' s.data with
  | [lp, dp] =>
    lp ≠ [] && lp.all localCharOk &&
    (let rev := dp.reverse
     let tld := rev.takeWhile (fun c => c ≠ '.')
     match rev.dropWhile (fun c => c ≠ '.') with
     | '.' :: before =>
       tld.length ≥ 2 && tld.all Char.isAlpha &&
       before ≠ [] && before.all domainCharOk
     | _ => false)
  | _ => false

/-- User._validate_email: trims and lowercases, checks length and format;
on success the normalized email is the value stored back into the
entity. -/
def validate_email (email : String) : Except String String :=
  if pyStrip email = "" then .error "Email cannot be empty"
  else
    let e := pyLower (pyStrip email)
    if pyLen e > 255 then .error "Email cannot exceed 255 characters"
    else if ¬ emailFormatOk e then .error "Email must have a valid format"
    else .ok e

/-- User._validate_password_hash: non-blank after strip. -/
def validate_password_hash (password_hash : String) : Except String Unit :=
  if pyStrip password_hash = "" then .error "Password hash cannot be empty"
  else .ok ()

/-- User._validate_full_name: when present, the trimmed value may not
exceed 100 chars and is stored back, with a blank value stored as None. -/
def validate_full_name (full_name : Option String) : Except String (Option String) :=
  match full_name with
  | none => .ok none
  | some s =>
    if pyLen (pyStrip s) > 100 then .error "Full name cannot exceed 100 characters"
    else .ok (if pyStrip s = "" then none else some (pyStrip s))

/-- Python truthiness of an Optional[str]. -/
def truthyStr : Option String → Bool
  | some s => s ≠ ""
  | none => false

/-- User.__init__ plus __post_init__: validate username, email and
password hash in order, then the full name only when it is truthy;
normalized username and email are stored. -/
def make (username email password_hash : String) (full_name : Option String)
    (is_active is_superuser : Bool) (id t0 t1 : Nat) : Except String User :=
  match validate_username username with
  | .error e => .error e
  | .ok un =>
    match validate_email email with
    | .error e => .error e
    | .ok em =>
      match validate_password_hash password_hash with
      | .error e => .error e
      | .ok _ =>
        if truthyStr full_name then
          match validate_full_name full_name with
          | .error e => .error e
          | .ok fn =>
            .ok { username := un, email := em, password_hash := password_hash,
                  id := id, full_name := fn, is_active := is_active,
                  is_superuser := is_superuser, created_at := t0, updated_at := t1 }
        else
          .ok { username := un, email := em, password_hash := password_hash,
                id := id, full_name := full_name, is_active := is_active,
                is_superuser := is_superuser, created_at := t0, updated_at := t1 }

/-- User.update_username: assign, validate (which stores the trimmed
value), set updated_at on success, roll back and re-raise on failure. -/
def update_username (u : User) (new_username : String) (now : Nat) : PyResult User :=
  let old_username := u.username
  let u1 : User := { u with username := new_username }
  match validate_username u1.username with
  | .ok un => .ok { u1 with username := un, updated_at := now }
  | .error e => .raised e { u1 with username := old_username }

/-- User.update_email: assign, validate (which stores the trimmed,
lowercased value), set updated_at on success, roll back and re-raise on
failure. -/
def update_email (u : User) (new_email : String) (now : Nat) : PyResult User :=
  let old_email := u.email
  let u1 : User := { u with email := new_email }
  match validate_email u1.email with
  | .ok em => .ok { u1 with email := em, updated_at := now }
  | .error e => .raised e { u1 with email := old_email }

/-- User.update_password_hash: assign, validate, set updated_at on
success, roll back and re-raise on failure. -/
def update_password_hash (u : User) (new_password_hash : String) (now : Nat) :
    PyResult User :=
  let old_password_hash := u.password_hash
  let u1 : User := { u with password_hash := new_password_hash }
  match validate_password_hash u1.password_hash with
  | .ok _ => .ok { u1 with updated_at := now }
  | .error e => .raised e { u1 with password_hash := old_password_hash }

/-- User.update_full_name: assign, validate (which stores the trimmed
value, blank mapped to None), set updated_at on success, roll back and
re-raise on failure. -/
def update_full_name (u : User) (new_full_name : Option String) (now : Nat) :
    PyResult User :=
  let old_full_name := u.full_name
  let u1 : User := { u with full_name := new_full_name }
  match validate_full_name u1.full_name with
  | .ok fn => .ok { u1 with full_name := fn, updated_at := now }
  | .error e => .raised e { u1 with full_name := old_full_name }

/-- User.activate: no-op when already active. -/
def activate (u : User) (now : Nat) : User :=
  if u.is_active then u
  else { u with is_active := true, updated_at := now }

/-- User.deactivate: no-op when already inactive. -/
def deactivate (u : User) (now : Nat) : User :=
  if u.is_active then { u with is_active := false, updated_at := now }
  else u

/-- User.make_superuser: raises for an inactive user, otherwise flips the
flag (no-op when already a superuser). -/
def make_superuser (u : User) (now : Nat) : PyResult User :=
  if ¬ u.is_active then
    .raised "Cannot grant superuser privileges to inactive user" u
  else if ¬ u.is_superuser then
    .ok { u with is_superuser := true, updated_at := now }
  else .ok u

/-- User.remove_superuser: no-op when not a superuser. -/
def remove_superuser (u : User) (now : Nat) : User :=
  if u.is_superuser then { u with is_superuser := false, updated_at := now }
  else u

end User

/-! ## Repository state (list semantics of the persistence contracts) -/

/-- The closed set of use-case failure kinds. -/
inductive UCErr where
  | valueError (msg : String)
  | blogPostNotFound (id : Nat)
  | duplicateBlogPost (id : Nat)
  | commentNotFound (id : Nat)
  | duplicateComment (id : Nat)
  | userNotFound (id : Nat)
  | duplicateUser (value : String) (field : String)
deriving Repr, DecidableEq

namespace PostRepo

/-- get_by_id: the stored post with the given id, if any. -/
def find (repo : List BlogPost) (id : Nat) : Option BlogPost :=
  repo.find? (fun p => p.id = id)

/-- exists: whether a post with the given id is stored. -/
def existsId (repo : List BlogPost) (id : Nat) : Bool :=
  (find repo id).isSome

/-- create: insert the post. -/
def create (repo : List BlogPost) (p : BlogPost) : List BlogPost :=
  repo ++ [p]

/-- update: overwrite the stored post carrying the same id. -/
def update (repo : List BlogPost) (p : BlogPost) : List BlogPost :=
  repo.map (fun q => if q.id = p.id then p else q)

/-- delete: remove the post with the given id, reporting whether it was
there. -/
def delete (repo : List BlogPost) (id : Nat) : Bool × List BlogPost :=
  if existsId repo id then (true, repo.filter (fun p => ¬ p.id = id))
  else (false, repo)

end PostRepo

namespace CommentRepo

/-- get_by_id: the stored comment with the given id, if any. -/
def find (repo : List Comment) (id : Nat) : Option Comment :=
  repo.find? (fun c => c.id = id)

/-- exists: whether a comment with the given id is stored. -/
def existsId (repo : List Comment) (id : Nat) : Bool :=
  (find repo id).isSome

/-- create: insert the comment. -/
def create (repo : List Comment) (c : Comment) : List Comment :=
  repo ++ [c]

/-- update: overwrite the stored comment carrying the same id. -/
def update (repo : List Comment) (c : Comment) : List Comment :=
  repo.map (fun d => if d.id = c.id then c else d)

/-- delete: remove the comment with the given id, reporting whether it was
there. -/
def delete (repo : List Comment) (id : Nat) : Bool × List Comment :=
  if existsId repo id then (true, repo.filter (fun c => ¬ c.id = id))
  else (false, repo)

/-- delete_by_blog_post_id: remove every comment owned by the post. -/
def delete_by_blog_post_id (repo : List Comment) (blog_post_id : Nat) : List Comment :=
  repo.filter (fun c => ¬ c.blog_post_id = blog_post_id)

end CommentRepo

namespace UserRepo

/-- get_by_id: the stored user with the given id, if any. -/
def get_by_id (repo : List User) (id : Nat) : Option User :=
  repo.find? (fun u => u.id = id)

/-- get_by_username: exact match on the stored username. -/
def get_by_username (repo : List User) (username : String) : Option User :=
  repo.find? (fun u => u.username = username)

/-- get_by_email: match on the stored email against the lowercased
argument, as the SQL layer does. -/
def get_by_email (repo : List User) (email : String) : Option User :=
  repo.find? (fun u => u.email = pyLower email)

/-- exists_by_username. -/
def exists_by_username (repo : List User) (username : String) : Bool :=
  (get_by_username repo username).isSome

/-- exists_by_email. -/
def exists_by_email (repo : List User) (email : String) : Bool :=
  (get_by_email repo email).isSome

/-- create: insert the user. -/
def create (repo : List User) (u : User) : List User :=
  repo ++ [u]

/-- update: overwrite the stored user carrying the same id. -/
def update (repo : List User) (u : User) : List User :=
  repo.map (fun v => if v.id = u.id then u else v)

end UserRepo

/-! ## Blog post use cases (src/domain/use_cases/blog_post_use_cases.py) -/

namespace BlogPostUseCases

/-- create_blog_post: construct (validating), defensively check the fresh
id, then persist.  id is the generated uuid4 and t0, t1 the two
construction-time clock readings. -/
def create_blog_post (prepo : List BlogPost) (title content : String)
    (id t0 t1 : Nat) : Except UCErr BlogPost × List BlogPost :=
  match BlogPost.make title content id t0 t1 with
  | .error e => (.error (.valueError e), prepo)
  | .ok p =>
    if PostRepo.existsId prepo p.id then (.error (.duplicateBlogPost p.id), prepo)
    else (.ok p, PostRepo.create prepo p)

/-- get_blog_post_by_id: fetch or fail with BlogPostNotFoundError. -/
def get_blog_post_by_id (prepo : List BlogPost) (blog_post_id : Nat) :
    Except UCErr BlogPost :=
  match PostRepo.find prepo blog_post_id with
  | none => .error (.blogPostNotFound blog_post_id)
  | some p => .ok p

/-- delete_blog_post: false without any change when the post is absent;
otherwise delete the owned comments first, then the post. -/
def delete_blog_post (prepo : List BlogPost) (crepo : List Comment)
    (blog_post_id : Nat) : Bool × List BlogPost × List Comment :=
  if ¬ PostRepo.existsId prepo blog_post_id then (false, prepo, crepo)
  else
    let crepo1 := CommentRepo.delete_by_blog_post_id crepo blog_post_id
    let pr := PostRepo.delete prepo blog_post_id
    (pr.1, pr.2, crepo1)

end BlogPostUseCases

/-! ## Comment use cases (src/domain/use_cases/comment_use_cases.py) -/

namespace CommentUseCases

/-- approve_comment: fetch (CommentNotFoundError when absent), flip via
the entity method, persist. -/
def approve_comment (crepo : List Comment) (comment_id : Nat) (now : Nat) :
    Except UCErr Comment × List Comment :=
  match CommentRepo.find crepo comment_id with
  | none => (.error (.commentNotFound comment_id), crepo)
  | some c =>
    let c1 := c.approve now
    (.ok c1, CommentRepo.update crepo c1)

/-- reject_comment: fetch (CommentNotFoundError when absent), flip via
the entity method, persist. -/
def reject_comment (crepo : List Comment) (comment_id : Nat) (now : Nat) :
    Except UCErr Comment × List Comment :=
  match CommentRepo.find crepo comment_id with
  | none => (.error (.commentNotFound comment_id), crepo)
  | some c =>
    let c1 := c.reject now
    (.ok c1, CommentRepo.update crepo c1)

/-- The sequential loop of moderate_comments_batch: apply the action to
each id in order; the first failure propagates and stops the loop, with
the state reached so far kept. -/
def moderate_loop (crepo : List Comment) (ids : List Nat) (isApprove : Bool)
    (now : Nat) : Except UCErr (List Comment) × List Comment :=
  match ids with
  | [] => (.ok [], crepo)
  | cid :: rest =>
    match (if isApprove then approve_comment crepo cid now
           else reject_comment crepo cid now) with
    | (.error e, r) => (.error e, r)
    | (.ok c, r) =>
      match moderate_loop r rest isApprove now with
      | (.ok cs, r2) => (.ok (c :: cs), r2)
      | (.error e, r2) => (.error e, r2)

/-- moderate_comments_batch: validate the action string, then run the
sequential loop. -/
def moderate_comments_batch (crepo : List Comment) (comment_ids : List Nat)
    (action : String) (now : Nat) : Except UCErr (List Comment) × List Comment :=
  if action ≠ "approve" ∧ action ≠ "reject" then
    (.error (.valueError "Action must be approve or reject"), crepo)
  else
    moderate_loop crepo comment_ids (action = "approve") now

end CommentUseCases

/-! ## Auth use cases (src/domain/use_cases/auth_use_cases.py) -/

namespace AuthUseCases

/-- The fixed special-character set of the password policy. -/
def special_chars : String := "!@#$%^&*()_+-=[]\x7b\x7d|;:,.<>?"

/-- _validate_password_strength: length at least 8, then one uppercase,
one lowercase, one digit, one special character, checked in that order. -/
def validate_password_strength (password : String) : Except String Unit :=
  if pyLen password < 8 then
    .error "Password must be at least 8 characters long"
  else if ¬ password.data.any Char.isUpper then
    .error "Password must contain at least one uppercase letter"
  else if ¬ password.data.any Char.isLower then
    .error "Password must contain at least one lowercase letter"
  else if ¬ password.data.any Char.isDigit then
    .error "Password must contain at least one digit"
  else if ¬ password.data.any (fun c => pyHasChar special_chars c) then
    .error "Password must contain at least one special character"
  else .ok ()

/-- register_user: password strength first, then username uniqueness, then
email uniqueness, then hash, construct and persist.  hash is the abstract
password hasher, fresh_id the generated uuid4, t0 and t1 the
construction-time clock readings. -/
def register_user (urepo : List User) (hash : String → String)
    (username email password : String) (full_name : Option String)
    (fresh_id t0 t1 : Nat) : Except UCErr User × List User :=
  match validate_password_strength password with
  | .error e => (.error (.valueError e), urepo)
  | .ok _ =>
    if UserRepo.exists_by_username urepo username then
      (.error (.duplicateUser username "username"), urepo)
    else if UserRepo.exists_by_email urepo email then
      (.error (.duplicateUser email "email"), urepo)
    else
      match User.make username email (hash password) full_name true false
          fresh_id t0 t1 with
      | .error e => (.error (.valueError e), urepo)
      | .ok u => (.ok u, UserRepo.create urepo u)

/-- authenticate_user: look up by username, fall back to email; None when
the user is missing or inactive or the password fails verification.
verify is the abstract hash verifier. -/
def authenticate_user (urepo : List User) (verify : String → String → Bool)
    (username_or_email password : String) : Option User :=
  let user :=
    match UserRepo.get_by_username urepo username_or_email with
    | some u => some u
    | none => UserRepo.get_by_email urepo username_or_email
  match user with
  | none => none
  | some u =>
    if ¬ u.is_active then none
    else if ¬ verify password u.password_hash then none
    else some u

/-- confirm_password_reset: decode the reset token (decodeReset is the
abstract token manager, None for any decode failure), load the user,
check activity, validate the new password, hash and persist; every
failure in the chain is caught and re-raised as the one generic
ValueError. -/
def confirm_password_reset (urepo : List User) (decodeReset : String → Option Nat)
    (hash : String → String) (reset_token new_password : String) (now : Nat) :
    Except UCErr Bool × List User :=
  let attempt : Except String (List User) :=
    match decodeReset reset_token with
    | none => .error "token decode failed"
    | some uid =>
      match UserRepo.get_by_id urepo uid with
      | none => .error "Invalid reset token"
      | some u =>
        if ¬ u.is_active then .error "Invalid reset token"
        else
          match validate_password_strength new_password with
          | .error e => .error e
          | .ok _ =>
            match u.update_password_hash (hash new_password) now with
            | .raised e _ => .error e
            | .ok u1 => .ok (UserRepo.update urepo u1)
  match attempt with
  | .ok r => (.ok true, r)
  | .error _ => (.error (.valueError "Invalid or expired reset token"), urepo)

end AuthUseCases

/-! ## Reachability of user states through entity operations -/

/-- One User entity operation, from any state, with any arguments and any
clock reading; the target is the object state after the call whether it
returned or raised. -/
inductive UserStep : User → User → Prop where
  | update_username (u : User) (s : String) (now : Nat) :
      UserStep u ((u.update_username s now).after)
  | update_email (u : User) (s : String) (now : Nat) :
      UserStep u ((u.update_email s now).after)
  | update_password_hash (u : User) (s : String) (now : Nat) :
      UserStep u ((u.update_password_hash s now).after)
  | update_full_name (u : User) (s : Option String) (now : Nat) :
      UserStep u ((u.update_full_name s now).after)
  | activate (u : User) (now : Nat) : UserStep u (u.activate now)
  | deactivate (u : User) (now : Nat) : UserStep u (u.deactivate now)
  | make_superuser (u : User) (now : Nat) :
      UserStep u ((u.make_superuser now).after)
  | remove_superuser (u : User) (now : Nat) : UserStep u (u.remove_superuser now)

/-- All user states reachable by a sequence of entity operations. -/
def UserReachable : User → User → Prop :=
  Relation.ReflTransGen UserStep

/-! ## General lemmas about the list repositories -/

theorem find_append {α : Type} (l1 l2 : List α) (p : α → Bool) :
    (l1 ++ l2).find? p = ((l1.find? p).orElse (fun _ => l2.find? p)) := by
  induction l1 with
  | nil => simp [Option.orElse]
  | cons a l ih =>
    by_cases h : p a = true
    · simp [List.find?, h, Option.orElse]
    · simp only [List.cons_append, List.find?]
      rw [Bool.not_eq_true] at h
      simp [h, ih]

theorem find_map_id_inv {α : Type} (l : List α) (f : α → α) (p : α → Bool)
    (hf : ∀ a, p (f a) = p a) : (l.map f).find? p = (l.find? p).map f := by
  induction l with
  | nil => simp
  | cons a l ih =>
    by_cases h : p a = true
    · simp [List.find?, hf, h]
    · rw [Bool.not_eq_true] at h
      simp only [List.map_cons, List.find?, hf, h]
      exact ih

/-! ## Concrete entities used by witnesses and counterexamples -/

/-- A concrete approved comment. -/
def cW : Comment :=
  { content := "hello", blog_post_id := 1, id := 2, author_name := "Anonymous",
    author_email := "", created_at := 0, updated_at := 0, is_approved := true }

/-- A concrete unapproved comment. -/
def cW2 : Comment :=
  { content := "other", blog_post_id := 1, id := 3, author_name := "Anonymous",
    author_email := "", created_at := 0, updated_at := 0, is_approved := false }

/-- A concrete valid blog post. -/
def pW : BlogPost :=
  { title := "a title", content := "some content", id := 4, created_at := 0,
    updated_at := 0, comment_ids := [] }

/-- A concrete valid active user. -/
def uW : User :=
  { username := "abc", email := "a@b.co", password_hash := "hash1", id := 1,
    full_name := none, is_active := true, is_superuser := false,
    created_at := 0, updated_at := 0 }

/-! ## C10 -/

/-- C10: Comment.approve on an already approved comment changes nothing,
Comment.reject on an already rejected comment changes nothing, and each
flip refreshes updated_at exactly when the approval flag changes. -/
theorem comment_moderation_idempotent (c : Comment) (now : Nat) :
    (c.is_approved = true → c.approve now = c) ∧
    (c.is_approved = false → c.reject now = c) ∧
    (c.is_approved = false →
      c.approve now = { c with is_approved := true, updated_at := now }) ∧
    (c.is_approved = true →
      c.reject now = { c with is_approved := false, updated_at := now }) := by
  unfold Comment.approve Comment.reject
  refine ⟨fun h => ?_, fun h => ?_, fun h => ?_, fun h => ?_⟩ <;> simp [h]

/-- Witness for C10 at the concrete comments cW (approved) and cW2 (not
approved). -/
theorem comment_moderation_idempotent_witness :
    cW.approve 5 = cW ∧ cW2.reject 5 = cW2 ∧
    cW2.approve 5 = { cW2 with is_approved := true, updated_at := 5 } ∧
    cW.reject 5 = { cW with is_approved := false, updated_at := 5 } :=
  ⟨(comment_moderation_idempotent cW 5).1 rfl,
   (comment_moderation_idempotent cW2 5).2.1 rfl,
   (comment_moderation_idempotent cW2 5).2.2.1 rfl,
   (comment_moderation_idempotent cW 5).2.2.2 rfl⟩

/-! ## C1 -/

theorem validate_username_ok_eq {s v : String}
    (h : User.validate_username s = .ok v) : v = pyStrip s := by
  simp only [User.validate_username] at h
  repeat' split at h
  all_goals cases h
  all_goals rfl

theorem validate_email_ok_eq {s v : String}
    (h : User.validate_email s = .ok v) : v = pyLower (pyStrip s) := by
  simp only [User.validate_email] at h
  repeat' split at h
  all_goals cases h
  all_goals rfl

theorem validate_full_name_ok_eq {os ov : Option String}
    (h : User.validate_full_name os = .ok ov) :
    ov = os.bind (fun t => if pyStrip t = "" then none else some (pyStrip t)) := by
  cases os with
  | none => injection h with h; exact h.symm
  | some s =>
    simp only [User.validate_full_name] at h
    split at h
    · cases h
    · injection h with h; simp [h.symm]

/-- C1 counterexample: update_username with the new value " abc " succeeds
but stores the trimmed value "abc", so the entity after the call does not
carry the new value as given. -/
theorem single_field_update_cex :
    (uW.update_username " abc " 7).isOk = true ∧
    (uW.update_username " abc " 7).after.username = "abc" ∧
    " abc " ≠ "abc" := by
  refine ⟨by decide, by decide, by decide⟩

/-- C1 amended: every single-field mutation either raises a validation
failure leaving the entity exactly as it was (every field, including
updated_at, unchanged), or succeeds, stores the new value after the
field's specified normalization (username trimmed; email trimmed and
lowercased; full name trimmed with a blank mapped to absent; all other
fields verbatim), refreshes updated_at, and changes nothing else. -/
theorem single_field_update_contract
    (p : BlogPost) (c : Comment) (u : User)
    (s : String) (os nm em : Option String) (now : Nat) :
    (∀ e q, p.update_title s now = .raised e q → q = p) ∧
    (∀ p1, p.update_title s now = .ok p1 →
      p1 = { p with title := s, updated_at := now }) ∧
    (∀ e q, p.update_content s now = .raised e q → q = p) ∧
    (∀ p1, p.update_content s now = .ok p1 →
      p1 = { p with content := s, updated_at := now }) ∧
    (∀ e q, c.update_content s now = .raised e q → q = c) ∧
    (∀ c1, c.update_content s now = .ok c1 →
      c1 = { c with content := s, updated_at := now }) ∧
    (∀ e q, c.update_author_info nm em now = .raised e q → q = c) ∧
    (∀ c1, c.update_author_info nm em now = .ok c1 →
      c1 = { c with author_name := nm.getD c.author_name,
                    author_email := em.getD c.author_email, updated_at := now }) ∧
    (∀ e q, u.update_username s now = .raised e q → q = u) ∧
    (∀ u1, u.update_username s now = .ok u1 →
      u1 = { u with username := pyStrip s, updated_at := now }) ∧
    (∀ e q, u.update_email s now = .raised e q → q = u) ∧
    (∀ u1, u.update_email s now = .ok u1 →
      u1 = { u with email := pyLower (pyStrip s), updated_at := now }) ∧
    (∀ e q, u.update_full_name os now = .raised e q → q = u) ∧
    (∀ u1, u.update_full_name os now = .ok u1 →
      u1 = { u with
              full_name := os.bind
                (fun t => if pyStrip t = "" then none else some (pyStrip t)),
              updated_at := now }) ∧
    (∀ e q, u.update_password_hash s now = .raised e q → q = u) ∧
    (∀ u1, u.update_password_hash s now = .ok u1 →
      u1 = { u with password_hash := s, updated_at := now }) := by
  refine ⟨?_, ?_, ?_, ?_, ?_, ?_, ?_, ?_, ?_, ?_, ?_, ?_, ?_, ?_, ?_, ?_⟩
  · intro e q h
    simp only [BlogPost.update_title] at h
    repeat' split at h
    all_goals cases h
    all_goals rfl
  · intro p1 h
    simp only [BlogPost.update_title] at h
    repeat' split at h
    all_goals cases h
    all_goals rfl
  · intro e q h
    simp only [BlogPost.update_content] at h
    repeat' split at h
    all_goals cases h
    all_goals rfl
  · intro p1 h
    simp only [BlogPost.update_content] at h
    repeat' split at h
    all_goals cases h
    all_goals rfl
  · intro e q h
    simp only [Comment.update_content] at h
    repeat' split at h
    all_goals cases h
    all_goals rfl
  · intro c1 h
    simp only [Comment.update_content] at h
    repeat' split at h
    all_goals cases h
    all_goals rfl
  · intro e q h
    cases nm <;> cases em <;> simp only [Comment.update_author_info] at h <;>
      repeat' split at h
    all_goals cases h
    all_goals rfl
  · intro c1 h
    cases nm with
    | none =>
      cases em with
      | none =>
        simp only [Comment.update_author_info] at h
        cases h; rfl
      | some m =>
        rcases hm : Comment.validate_author_email m with e | u2
        · simp only [Comment.update_author_info, hm] at h; cases h
        · simp only [Comment.update_author_info, hm] at h; cases h; rfl
    | some n =>
      rcases hn : Comment.validate_author_name n with e | u2
      · cases em with
        | none => simp only [Comment.update_author_info, hn] at h; cases h
        | some m => simp only [Comment.update_author_info, hn] at h; cases h
      · cases em with
        | none => simp only [Comment.update_author_info, hn] at h; cases h; rfl
        | some m =>
          rcases hm : Comment.validate_author_email m with e | u3
          · simp only [Comment.update_author_info, hn, hm] at h; cases h
          · simp only [Comment.update_author_info, hn, hm] at h; cases h; rfl
  · intro e q h
    simp only [User.update_username] at h
    repeat' split at h
    all_goals cases h
    all_goals rfl
  · intro u1 h
    simp only [User.update_username] at h
    split at h
    next un hv =>
      cases h
      rw [validate_username_ok_eq hv]
    next e hv => cases h
  · intro e q h
    simp only [User.update_email] at h
    repeat' split at h
    all_goals cases h
    all_goals rfl
  · intro u1 h
    simp only [User.update_email] at h
    split at h
    next em1 hv =>
      cases h
      rw [validate_email_ok_eq hv]
    next e hv => cases h
  · intro e q h
    simp only [User.update_full_name] at h
    repeat' split at h
    all_goals cases h
    all_goals rfl
  · intro u1 h
    simp only [User.update_full_name] at h
    split at h
    next fn hv =>
      cases h
      rw [validate_full_name_ok_eq hv]
    next e hv => cases h
  · intro e q h
    simp only [User.update_password_hash] at h
    repeat' split at h
    all_goals cases h
    all_goals rfl
  · intro u1 h
    simp only [User.update_password_hash] at h
    repeat' split at h
    all_goals cases h
    all_goals rfl

/-- Witness for C1 amended: at the concrete user uW, a failing
update_username leaves the user exactly as it was, and a succeeding
update_username stores the trimmed value and refreshes updated_at. -/
theorem single_field_update_contract_witness :
    (uW.update_username "ab" 9).after = uW ∧
    (uW.update_username " abc " 7).after =
      { uW with username := pyStrip " abc ", updated_at := 7 } := by
  constructor
  · exact (single_field_update_contract pW cW uW "ab" none none none 9).2.2.2.2.2.2.2.2.1
      "Username must be at least 3 characters long"
      ((uW.update_username "ab" 9).after) (by decide)
  · exact (single_field_update_contract pW cW uW " abc " none none none 7).2.2.2.2.2.2.2.2.2.1
      ((uW.update_username " abc " 7).after) (by decide)

/-! ## Dichotomy lemmas: each mutation either raises leaving the entity
unchanged or succeeds with the computed update -/

theorem update_username_dichotomy (u : User) (s : String) (now : Nat) :
    (∃ e, u.update_username s now = .raised e u) ∨
    u.update_username s now = .ok { u with username := pyStrip s, updated_at := now } := by
  simp only [User.update_username]
  split
  next un hv =>
    right
    rw [validate_username_ok_eq hv]
  next e hv => left; exact ⟨e, rfl⟩

theorem update_email_dichotomy (u : User) (s : String) (now : Nat) :
    (∃ e, u.update_email s now = .raised e u) ∨
    u.update_email s now = .ok { u with email := pyLower (pyStrip s), updated_at := now } := by
  simp only [User.update_email]
  split
  next em hv =>
    right
    rw [validate_email_ok_eq hv]
  next e hv => left; exact ⟨e, rfl⟩

theorem update_password_hash_dichotomy (u : User) (s : String) (now : Nat) :
    (∃ e, u.update_password_hash s now = .raised e u) ∨
    u.update_password_hash s now = .ok { u with password_hash := s, updated_at := now } := by
  simp only [User.update_password_hash]
  split
  next hv => right; rfl
  next e hv => left; exact ⟨e, rfl⟩

theorem update_full_name_dichotomy (u : User) (os : Option String) (now : Nat) :
    (∃ e, u.update_full_name os now = .raised e u) ∨
    u.update_full_name os now = .ok { u with
      full_name := os.bind (fun t => if pyStrip t = "" then none else some (pyStrip t)),
      updated_at := now } := by
  simp only [User.update_full_name]
  split
  next fn hv =>
    right
    rw [validate_full_name_ok_eq hv]
  next e hv => left; exact ⟨e, rfl⟩

theorem make_superuser_dichotomy (u : User) (now : Nat) :
    (u.make_superuser now = .raised "Cannot grant superuser privileges to inactive user" u
      ∧ u.is_active = false) ∨
    (∃ v, u.make_superuser now = .ok v ∧ v.is_active = u.is_active ∧
      v.is_superuser = true ∧ v.created_at = u.created_at ∧
      (v.updated_at = u.updated_at ∨ v.updated_at = now)) := by
  simp only [User.make_superuser]
  by_cases ha : u.is_active
  · by_cases hs : u.is_superuser
    · right; exact ⟨u, by simp [ha, hs], rfl, hs, rfl, Or.inl rfl⟩
    · right
      refine ⟨{ u with is_superuser := true, updated_at := now }, by simp [ha, hs], rfl, rfl, rfl, Or.inr rfl⟩
  · left
    simp [ha]

/-! ## C2 -/

/-- The validly constructed user of the C2 scenario. -/
def uC2 : User :=
  { username := "abc", email := "a@b.co", password_hash := "hash1", id := 1,
    full_name := none, is_active := true, is_superuser := false,
    created_at := 0, updated_at := 0 }

/-- The state reached from uC2 by make_superuser at time 1 and then
deactivate at time 2. -/
def uC2bad : User :=
  { username := "abc", email := "a@b.co", password_hash := "hash1", id := 1,
    full_name := none, is_active := false, is_superuser := true,
    created_at := 0, updated_at := 2 }

/-- C2 counterexample: a validly constructed user reaches, through
make_superuser followed by deactivate, a state that is simultaneously a
superuser and inactive. -/
theorem superuser_implies_active_cex :
    User.make "abc" "a@b.co" "hash1" none true false 1 0 0 = Except.ok uC2 ∧
    UserReachable uC2 uC2bad ∧
    uC2bad.is_superuser = true ∧ uC2bad.is_active = false := by
  refine ⟨rfl, ?_, rfl, rfl⟩
  have s1 := UserStep.make_superuser uC2 1
  have s2 := UserStep.deactivate ((uC2.make_superuser 1).after) 2
  have he : (((uC2.make_superuser 1).after).deactivate 2) = uC2bad := by decide
  exact Relation.ReflTransGen.head s1 (he ▸ Relation.ReflTransGen.single s2)

/-- The implication: superuser only if active. -/
def userSuperInv (u : User) : Prop := u.is_superuser = true → u.is_active = true

/-- C2 amended: make_superuser raises on an inactive user and leaves it
unchanged, so superuser status is only ever granted to an active user,
and every entity operation except deactivate preserves the implication
superuser implies active; deactivate, however, leaves the superuser flag
as it is while clearing the active flag, which is how a superuser can end
up inactive. -/
theorem superuser_granted_only_when_active (u : User) (s : String)
    (os : Option String) (now : Nat) :
    (u.is_active = false →
      u.make_superuser now =
        .raised "Cannot grant superuser privileges to inactive user" u) ∧
    (userSuperInv u → userSuperInv ((u.make_superuser now).after)) ∧
    (userSuperInv u → userSuperInv (u.activate now)) ∧
    (userSuperInv u → userSuperInv (u.remove_superuser now)) ∧
    (userSuperInv u → userSuperInv ((u.update_username s now).after)) ∧
    (userSuperInv u → userSuperInv ((u.update_email s now).after)) ∧
    (userSuperInv u → userSuperInv ((u.update_password_hash s now).after)) ∧
    (userSuperInv u → userSuperInv ((u.update_full_name os now).after)) ∧
    ((u.deactivate now).is_superuser = u.is_superuser) := by
  refine ⟨?_, ?_, ?_, ?_, ?_, ?_, ?_, ?_, ?_⟩
  · intro ha
    simp only [User.make_superuser, ha]
    rfl
  · intro hi
    unfold userSuperInv at hi ⊢
    simp only [User.make_superuser]
    by_cases ha : u.is_active
    · by_cases hs : u.is_superuser
      · simp [ha, hs, PyResult.after]
      · simp [ha, hs, PyResult.after]
    · simp only [ha, Bool.false_eq_true, not_false_eq_true, if_pos, ite_true]
      exact hi
  · intro hi h2
    simp only [User.activate] at h2 ⊢
    by_cases ha : u.is_active
    · simp [ha] at h2 ⊢
    · simp [ha] at h2 ⊢
  · intro hi h2
    simp only [User.remove_superuser] at h2 ⊢
    by_cases hs : u.is_superuser
    · simp [hs] at h2
    · simp [hs] at h2
  · intro hi
    rcases update_username_dichotomy u s now with ⟨e, hr⟩ | hok
    · rw [hr]; exact hi
    · rw [hok]; exact hi
  · intro hi
    rcases update_email_dichotomy u s now with ⟨e, hr⟩ | hok
    · rw [hr]; exact hi
    · rw [hok]; exact hi
  · intro hi
    rcases update_password_hash_dichotomy u s now with ⟨e, hr⟩ | hok
    · rw [hr]; exact hi
    · rw [hok]; exact hi
  · intro hi
    rcases update_full_name_dichotomy u os now with ⟨e, hr⟩ | hok
    · rw [hr]; exact hi
    · rw [hok]; exact hi
  · unfold User.deactivate
    by_cases ha : u.is_active <;> simp [ha]

/-- A concrete inactive user. -/
def uC2in : User :=
  { username := "def1", email := "d@e.fg", password_hash := "hash2", id := 2,
    full_name := none, is_active := false, is_superuser := false,
    created_at := 0, updated_at := 0 }

/-- Witness for C2 amended: make_superuser on the concrete inactive user
raises and leaves it unchanged, and after granting superuser to the
concrete active user the implication still yields an active user. -/
theorem superuser_granted_only_when_active_witness :
    uC2in.make_superuser 3 =
      .raised "Cannot grant superuser privileges to inactive user" uC2in ∧
    ((uC2.make_superuser 1).after).is_active = true := by
  constructor
  · exact (superuser_granted_only_when_active uC2in "abc" none 3).1 rfl
  · exact (superuser_granted_only_when_active uC2 "abc" none 1).2.1
      (fun h => by cases h) (by rfl)

/-! ## C3 -/

/-- The post produced by the C3 counterexample run: the two
construction-time clock readings differ by one tick. -/
def pC3 : BlogPost :=
  { title := "a", content := "b", id := 0, created_at := 0, updated_at := 1,
    comment_ids := [] }

/-- C3 counterexample: with valid title and content and monotone clock
readings 0 and 1 during construction, create_blog_post then
get_blog_post_by_id returns the entity unchanged, but its created_at
differs from its updated_at, because the two timestamps come from two
separate clock readings. -/
theorem create_then_get_cex :
    BlogPostUseCases.create_blog_post [] "a" "b" 0 0 1 = (.ok pC3, [pC3]) ∧
    BlogPostUseCases.get_blog_post_by_id [pC3] 0 = .ok pC3 ∧
    (0 : Nat) ≤ 1 ∧
    pC3.created_at ≠ pC3.updated_at := by
  refine ⟨rfl, rfl, by decide, by decide⟩

/-- C3 amended: for valid (title, content) within bounds and a fresh id,
create_blog_post persists and get_blog_post_by_id returns an entity whose
title and content are identical to the inputs and whose created_at is at
most its updated_at (both taken during construction; they are equal
exactly when the two clock readings coincide). -/
theorem create_then_get_roundtrip
    (prepo : List BlogPost) (title content : String) (id t0 t1 : Nat)
    (hmono : t0 ≤ t1)
    (ht : pyStrip title ≠ "") (hl : pyLen title ≤ 200) (hc : pyStrip content ≠ "")
    (hfresh : PostRepo.existsId prepo id = false) :
    ∃ p, BlogPostUseCases.create_blog_post prepo title content id t0 t1 =
        (.ok p, PostRepo.create prepo p) ∧
      BlogPostUseCases.get_blog_post_by_id (PostRepo.create prepo p) p.id = .ok p ∧
      p.title = title ∧ p.content = content ∧
      p.created_at ≤ p.updated_at := by
  have hmk : BlogPost.make title content id t0 t1 = .ok
      { title := title, content := content, id := id, created_at := t0,
        updated_at := t1, comment_ids := [] } := by
    unfold BlogPost.make BlogPost.validate_title BlogPost.validate_content
    rw [if_neg ht, if_neg (by omega : ¬ pyLen title > 200), if_neg hc]
  have hnone : prepo.find? (fun q => q.id = id) = none := by
    unfold PostRepo.existsId PostRepo.find at hfresh
    cases hx : prepo.find? (fun q => q.id = id) with
    | none => rfl
    | some q => rw [hx] at hfresh; cases hfresh
  refine ⟨{ title := title, content := content, id := id, created_at := t0,
            updated_at := t1, comment_ids := [] }, ?_, ?_, rfl, rfl, hmono⟩
  · unfold BlogPostUseCases.create_blog_post
    rw [hmk]
    have : PostRepo.existsId prepo id = false := hfresh
    simp only [this, Bool.false_eq_true, if_false]
  · unfold BlogPostUseCases.get_blog_post_by_id PostRepo.find PostRepo.create
    rw [find_append, hnone]
    simp [List.find?]

/-- Witness for C3 amended at concrete inputs with coinciding clock
readings. -/
theorem create_then_get_roundtrip_witness :
    ∃ p, BlogPostUseCases.create_blog_post [] "hello" "world" 3 5 5 =
        (.ok p, PostRepo.create [] p) ∧
      BlogPostUseCases.get_blog_post_by_id (PostRepo.create [] p) p.id = .ok p ∧
      p.title = "hello" ∧ p.content = "world" ∧
      p.created_at ≤ p.updated_at :=
  create_then_get_roundtrip [] "hello" "world" 3 5 5 (le_refl 5)
    (by decide) (by decide) (by decide) rfl

/-! ## C4 -/

/-- C4: authenticate_user looks the user up by username first and falls
back to email only when the username lookup finds nothing, and all three
failure cases -- no user found by either lookup, user found but inactive,
user found and active but failing password verification -- return the
same observable outcome None rather than an error. -/
theorem authenticate_user_contract (urepo : List User)
    (verify : String → String → Bool) (ident pw : String) :
    (∀ u, UserRepo.get_by_username urepo ident = some u →
      AuthUseCases.authenticate_user urepo verify ident pw =
        (if u.is_active ∧ verify pw u.password_hash then some u else none)) ∧
    (UserRepo.get_by_username urepo ident = none →
      ∀ u, UserRepo.get_by_email urepo ident = some u →
        AuthUseCases.authenticate_user urepo verify ident pw =
          (if u.is_active ∧ verify pw u.password_hash then some u else none)) ∧
    (UserRepo.get_by_username urepo ident = none →
      UserRepo.get_by_email urepo ident = none →
      AuthUseCases.authenticate_user urepo verify ident pw = none) ∧
    (∀ u, (UserRepo.get_by_username urepo ident = some u ∨
           (UserRepo.get_by_username urepo ident = none ∧
            UserRepo.get_by_email urepo ident = some u)) →
      u.is_active = false →
      AuthUseCases.authenticate_user urepo verify ident pw = none) ∧
    (∀ u, (UserRepo.get_by_username urepo ident = some u ∨
           (UserRepo.get_by_username urepo ident = none ∧
            UserRepo.get_by_email urepo ident = some u)) →
      u.is_active = true → verify pw u.password_hash = false →
      AuthUseCases.authenticate_user urepo verify ident pw = none) := by
  refine ⟨?_, ?_, ?_, ?_, ?_⟩
  · intro u h
    simp only [AuthUseCases.authenticate_user, h]
    by_cases ha : u.is_active <;> by_cases hv : verify pw u.password_hash <;>
      simp [ha, hv]
  · intro h u h2
    simp only [AuthUseCases.authenticate_user, h, h2]
    by_cases ha : u.is_active <;> by_cases hv : verify pw u.password_hash <;>
      simp [ha, hv]
  · intro h h2
    simp only [AuthUseCases.authenticate_user, h, h2]
  · intro u hfound ha
    rcases hfound with h | ⟨h, h2⟩
    · simp only [AuthUseCases.authenticate_user, h]
      simp [ha]
    · simp only [AuthUseCases.authenticate_user, h, h2]
      simp [ha]
  · intro u hfound ha hv
    rcases hfound with h | ⟨h, h2⟩
    · simp only [AuthUseCases.authenticate_user, h]
      simp [ha, hv]
    · simp only [AuthUseCases.authenticate_user, h, h2]
      simp [ha, hv]

/-- Witness for C4: with concrete one-user repositories, an unknown
identifier, an inactive user, and a failing password verification all
yield None. -/
theorem authenticate_user_contract_witness :
    AuthUseCases.authenticate_user [uW] (fun _ _ => true) "nobody" "x" = none ∧
    AuthUseCases.authenticate_user [uC2in] (fun _ _ => true) "def1" "x" = none ∧
    AuthUseCases.authenticate_user [uW] (fun _ _ => false) "abc" "x" = none := by
  refine ⟨?_, ?_, ?_⟩
  · exact (authenticate_user_contract [uW] (fun _ _ => true) "nobody" "x").2.2.1 rfl rfl
  · exact (authenticate_user_contract [uC2in] (fun _ _ => true) "def1" "x").2.2.2.1
      uC2in (Or.inl (by decide)) rfl
  · exact (authenticate_user_contract [uW] (fun _ _ => false) "abc" "x").2.2.2.2
      uW (Or.inl (by decide)) rfl rfl

/-! ## C5 -/

/-- C5: register_user validates password strength before any repository
interaction (a weak password yields the strength failure for every
repository state, in particular even when both uniqueness checks would
collide), then checks username uniqueness, then email uniqueness, so when
both collide the reported failure is the username duplicate tagged with
its field; on a weak password or a duplicate the repository state is
returned unchanged, so no user is constructed or persisted. -/
theorem register_user_contract (urepo : List User) (hash : String → String)
    (username email password : String) (full_name : Option String)
    (fresh_id t0 t1 : Nat) :
    (∀ e, AuthUseCases.validate_password_strength password = .error e →
      AuthUseCases.register_user urepo hash username email password full_name
          fresh_id t0 t1 =
        (.error (.valueError e), urepo)) ∧
    (AuthUseCases.validate_password_strength password = .ok () →
      UserRepo.exists_by_username urepo username = true →
      AuthUseCases.register_user urepo hash username email password full_name
          fresh_id t0 t1 =
        (.error (.duplicateUser username "username"), urepo)) ∧
    (AuthUseCases.validate_password_strength password = .ok () →
      UserRepo.exists_by_username urepo username = false →
      UserRepo.exists_by_email urepo email = true →
      AuthUseCases.register_user urepo hash username email password full_name
          fresh_id t0 t1 =
        (.error (.duplicateUser email "email"), urepo)) := by
  refine ⟨?_, ?_, ?_⟩
  · intro e h
    simp only [AuthUseCases.register_user, h]
  · intro h hu
    simp only [AuthUseCases.register_user, h, hu]
    rfl
  · intro h hu he
    simp only [AuthUseCases.register_user, h, hu, he]
    rfl

/-- Witness for C5: a weak password is rejected even though both the
username and the email collide with the stored user, and with a strong
password the username collision is reported first when both collide. -/
theorem register_user_contract_witness :
    AuthUseCases.register_user [uW] (fun s => s) "abc" "a@b.co" "weak" none 9 0 0 =
      (.error (.valueError "Password must be at least 8 characters long"), [uW]) ∧
    AuthUseCases.register_user [uW] (fun s => s) "abc" "a@b.co" "Valid123!" none 9 0 0 =
      (.error (.duplicateUser "abc" "username"), [uW]) ∧
    AuthUseCases.register_user [uW] (fun s => s) "xyz" "a@b.co" "Valid123!" none 9 0 0 =
      (.error (.duplicateUser "a@b.co" "email"), [uW]) := by
  refine ⟨?_, ?_, ?_⟩
  · exact (register_user_contract [uW] (fun s => s) "abc" "a@b.co" "weak" none 9 0 0).1
      "Password must be at least 8 characters long" rfl
  · exact (register_user_contract [uW] (fun s => s) "abc" "a@b.co" "Valid123!" none 9 0 0).2.1
      rfl rfl
  · exact (register_user_contract [uW] (fun s => s) "xyz" "a@b.co" "Valid123!" none 9 0 0).2.2
      rfl rfl rfl

/-! ## C6 -/

/-- C6: every failure inside confirm_password_reset -- token that fails
decoding, missing user, inactive user, weak new password, or even a blank
hasher output -- surfaces as the single generic failure carrying the
message about an invalid or expired reset token, with the repository
state unchanged; on success the new password hash is persisted for the
user and the call returns true. -/
theorem confirm_password_reset_contract (urepo : List User)
    (decodeReset : String → Option Nat) (hash : String → String)
    (reset_token new_password : String) (now : Nat) :
    (decodeReset reset_token = none →
      AuthUseCases.confirm_password_reset urepo decodeReset hash reset_token
          new_password now =
        (.error (.valueError "Invalid or expired reset token"), urepo)) ∧
    (∀ uid, decodeReset reset_token = some uid →
      UserRepo.get_by_id urepo uid = none →
      AuthUseCases.confirm_password_reset urepo decodeReset hash reset_token
          new_password now =
        (.error (.valueError "Invalid or expired reset token"), urepo)) ∧
    (∀ uid u, decodeReset reset_token = some uid →
      UserRepo.get_by_id urepo uid = some u → u.is_active = false →
      AuthUseCases.confirm_password_reset urepo decodeReset hash reset_token
          new_password now =
        (.error (.valueError "Invalid or expired reset token"), urepo)) ∧
    (∀ uid u e, decodeReset reset_token = some uid →
      UserRepo.get_by_id urepo uid = some u → u.is_active = true →
      AuthUseCases.validate_password_strength new_password = .error e →
      AuthUseCases.confirm_password_reset urepo decodeReset hash reset_token
          new_password now =
        (.error (.valueError "Invalid or expired reset token"), urepo)) ∧
    (∀ uid u, decodeReset reset_token = some uid →
      UserRepo.get_by_id urepo uid = some u → u.is_active = true →
      AuthUseCases.validate_password_strength new_password = .ok () →
      pyStrip (hash new_password) = "" →
      AuthUseCases.confirm_password_reset urepo decodeReset hash reset_token
          new_password now =
        (.error (.valueError "Invalid or expired reset token"), urepo)) ∧
    (∀ uid u, decodeReset reset_token = some uid →
      UserRepo.get_by_id urepo uid = some u → u.is_active = true →
      AuthUseCases.validate_password_strength new_password = .ok () →
      pyStrip (hash new_password) ≠ "" →
      AuthUseCases.confirm_password_reset urepo decodeReset hash reset_token
          new_password now =
        (.ok true, UserRepo.update urepo
          { u with password_hash := hash new_password, updated_at := now })) := by
  refine ⟨?_, ?_, ?_, ?_, ?_, ?_⟩
  · intro h
    simp [AuthUseCases.confirm_password_reset, h]
  · intro uid h hg
    simp [AuthUseCases.confirm_password_reset, h, hg]
  · intro uid u h hg ha
    simp [AuthUseCases.confirm_password_reset, h, hg, ha]
  · intro uid u e h hg ha hstr
    simp [AuthUseCases.confirm_password_reset, h, hg, ha, hstr]
  · intro uid u h hg ha hstr hh
    have hup : u.update_password_hash (hash new_password) now =
        .raised "Password hash cannot be empty"
          { u with password_hash := u.password_hash } := by
      simp [User.update_password_hash, User.validate_password_hash, hh]
    simp [AuthUseCases.confirm_password_reset, h, hg, ha, hstr, hup]
  · intro uid u h hg ha hstr hh
    have hup : u.update_password_hash (hash new_password) now =
        .ok { u with password_hash := hash new_password, updated_at := now } := by
      simp [User.update_password_hash, User.validate_password_hash, hh]
    simp [AuthUseCases.confirm_password_reset, h, hg, ha, hstr, hup]

/-- Witness for C6: with the concrete one-user repository, a failing
decode yields the generic failure with the repository unchanged, and a
successful chain persists the new hash and returns true. -/
theorem confirm_password_reset_contract_witness :
    AuthUseCases.confirm_password_reset [uW] (fun _ => none) (fun _ => "newhash")
        "tok" "Valid123!" 4 =
      (.error (.valueError "Invalid or expired reset token"), [uW]) ∧
    AuthUseCases.confirm_password_reset [uW] (fun _ => some 1) (fun _ => "newhash")
        "tok" "Valid123!" 4 =
      (.ok true, UserRepo.update [uW]
        { uW with password_hash := "newhash", updated_at := 4 }) := by
  constructor
  · exact (confirm_password_reset_contract [uW] (fun _ => none) (fun _ => "newhash")
      "tok" "Valid123!" 4).1 rfl
  · exact (confirm_password_reset_contract [uW] (fun _ => some 1) (fun _ => "newhash")
      "tok" "Valid123!" 4).2.2.2.2.2 1 uW rfl rfl rfl rfl (by decide)

/-! ## C7 -/

theorem approve_is_approved (c : Comment) (now : Nat) :
    (c.approve now).is_approved = true := by
  unfold Comment.approve
  by_cases h : c.is_approved <;> simp [h]

theorem approve_id (c : Comment) (now : Nat) : (c.approve now).id = c.id := by
  unfold Comment.approve
  by_cases h : c.is_approved <;> simp [h]

theorem find_update (crepo : List Comment) (c : Comment) (x : Nat) :
    CommentRepo.find (CommentRepo.update crepo c) x =
      (CommentRepo.find crepo x).map (fun q => if q.id = c.id then c else q) := by
  unfold CommentRepo.find CommentRepo.update
  refine find_map_id_inv crepo _ _ ?_
  intro a
  by_cases h : a.id = c.id <;> simp [h]

theorem existsId_update (crepo : List Comment) (c : Comment) (x : Nat) :
    CommentRepo.existsId (CommentRepo.update crepo c) x =
      CommentRepo.existsId crepo x := by
  unfold CommentRepo.existsId
  rw [find_update]
  cases CommentRepo.find crepo x <;> rfl

/-- In approve mode the loop never un-approves: an id whose stored
comment is approved stays approved through the whole loop. -/
theorem moderate_loop_keeps_approved (ids : List Nat) (crepo : List Comment)
    (now g : Nat)
    (hg : ∃ c, CommentRepo.find crepo g = some c ∧ c.is_approved = true) :
    ∃ c, CommentRepo.find
        ((CommentUseCases.moderate_loop crepo ids true now).2) g = some c ∧
      c.is_approved = true := by
  induction ids generalizing crepo hg with
  | nil => exact hg
  | cons cid rest ih =>
    cases hf : CommentRepo.find crepo cid with
    | none =>
      simp only [CommentUseCases.moderate_loop, CommentUseCases.approve_comment,
        if_true, hf]
      exact hg
    | some d =>
      have hinv : ∃ c, CommentRepo.find
          (CommentRepo.update crepo (d.approve now)) g = some c ∧
          c.is_approved = true := by
        obtain ⟨c, hc, hap⟩ := hg
        rw [find_update, hc]
        by_cases hid : c.id = (d.approve now).id
        · exact ⟨d.approve now, by simp [hid], approve_is_approved d now⟩
        · exact ⟨c, by simp [hid], hap⟩
      have hrec := ih (CommentRepo.update crepo (d.approve now)) hinv
      rcases hres : CommentUseCases.moderate_loop
          (CommentRepo.update crepo (d.approve now)) rest true now with ⟨res2, final⟩
      rw [hres] at hrec
      simp only [CommentUseCases.moderate_loop, CommentUseCases.approve_comment,
        if_true, hf, hres]
      cases res2 <;> exact hrec

/-- The loop on goods ++ bad :: rest, all of goods stored and bad absent:
it fails with not-found at bad and the final state keeps every id of
goods approved. -/
theorem moderate_loop_prefix_fail (bad : Nat) (rest : List Nat) (now : Nat) :
    ∀ (goods : List Nat) (crepo : List Comment),
    (∀ g ∈ goods, CommentRepo.existsId crepo g = true) →
    CommentRepo.existsId crepo bad = false →
    (CommentUseCases.moderate_loop crepo (goods ++ bad :: rest) true now).1 =
        .error (.commentNotFound bad) ∧
    (∀ g ∈ goods, ∃ c, CommentRepo.find
        ((CommentUseCases.moderate_loop crepo (goods ++ bad :: rest) true now).2) g =
          some c ∧
      c.is_approved = true) := by
  intro goods
  induction goods with
  | nil =>
    intro crepo hall hbad
    have hf : CommentRepo.find crepo bad = none := by
      unfold CommentRepo.existsId at hbad
      cases hx : CommentRepo.find crepo bad with
      | none => rfl
      | some c => rw [hx] at hbad; cases hbad
    constructor
    · simp [CommentUseCases.moderate_loop, CommentUseCases.approve_comment, hf]
    · intro g hgm
      cases hgm
  | cons g0 gs ih =>
    intro crepo hall hbad
    have hex : CommentRepo.existsId crepo g0 = true := hall g0 (by simp)
    obtain ⟨d, hd⟩ : ∃ d, CommentRepo.find crepo g0 = some d := by
      unfold CommentRepo.existsId at hex
      cases hx : CommentRepo.find crepo g0 with
      | none => rw [hx] at hex; cases hex
      | some d => exact ⟨d, rfl⟩
    have hall2 : ∀ g ∈ gs, CommentRepo.existsId
        (CommentRepo.update crepo (d.approve now)) g = true := by
      intro g hgm
      rw [existsId_update]
      exact hall g (by simp [hgm])
    have hbad2 : CommentRepo.existsId
        (CommentRepo.update crepo (d.approve now)) bad = false := by
      rw [existsId_update]; exact hbad
    obtain ⟨ih1, ih2⟩ := ih (CommentRepo.update crepo (d.approve now)) hall2 hbad2
    have hg0 : ∃ c, CommentRepo.find
        (CommentRepo.update crepo (d.approve now)) g0 = some c ∧
        c.is_approved = true := by
      rw [find_update, hd]
      exact ⟨d.approve now, by simp [approve_id], approve_is_approved d now⟩
    have hkeep := moderate_loop_keeps_approved (gs ++ bad :: rest)
      (CommentRepo.update crepo (d.approve now)) now g0 hg0
    rcases hres : CommentUseCases.moderate_loop
        (CommentRepo.update crepo (d.approve now)) (gs ++ bad :: rest) true now
      with ⟨res2, final⟩
    rw [hres] at ih1 ih2 hkeep
    simp only [List.cons_append, CommentUseCases.moderate_loop,
      CommentUseCases.approve_comment, if_true, hd, List.append_eq, hres]
    cases res2 with
    | ok cs => cases ih1
    | error e =>
      cases ih1
      refine ⟨rfl, ?_⟩
      intro g hgm
      rcases List.mem_cons.mp hgm with hg | hg
      · cases hg; exact hkeep
      · exact ih2 g hg

/-- C7: moderate_comments_batch applies the approve action to the ids
strictly in list order, fails fast with a not-found signal naming the
first id that is not stored, and does not roll back the moderation
already persisted for the preceding ids: every preceding id ends up
stored as approved even though the call overall fails. -/
theorem moderate_comments_batch_partial (goods : List Nat) (bad : Nat)
    (rest : List Nat) (crepo : List Comment) (now : Nat)
    (hall : ∀ g ∈ goods, CommentRepo.existsId crepo g = true)
    (hbad : CommentRepo.existsId crepo bad = false) :
    (CommentUseCases.moderate_comments_batch crepo (goods ++ bad :: rest)
        "approve" now).1 = .error (.commentNotFound bad) ∧
    (∀ g ∈ goods, ∃ c, CommentRepo.find
        ((CommentUseCases.moderate_comments_batch crepo (goods ++ bad :: rest)
          "approve" now).2) g = some c ∧
      c.is_approved = true) := by
  have hb : CommentUseCases.moderate_comments_batch crepo (goods ++ bad :: rest)
      "approve" now =
      CommentUseCases.moderate_loop crepo (goods ++ bad :: rest) true now := by
    simp [CommentUseCases.moderate_comments_batch]
  rw [hb]
  exact moderate_loop_prefix_fail bad rest now goods crepo hall hbad

/-- Witness for C7: the concrete two-comment repository, batch
[2, 3, 9] with 9 absent: the call fails with not-found 9 while the
comments 2 and 3 end up approved. -/
theorem moderate_comments_batch_partial_witness :
    (CommentUseCases.moderate_comments_batch [cW, cW2] [2, 3, 9] "approve" 6).1 =
      .error (.commentNotFound 9) ∧
    (∃ c, CommentRepo.find
        ((CommentUseCases.moderate_comments_batch [cW, cW2] [2, 3, 9] "approve" 6).2)
        2 = some c ∧ c.is_approved = true) ∧
    (∃ c, CommentRepo.find
        ((CommentUseCases.moderate_comments_batch [cW, cW2] [2, 3, 9] "approve" 6).2)
        3 = some c ∧ c.is_approved = true) := by
  have h := moderate_comments_batch_partial [2, 3] 9 [] [cW, cW2] 6
    (by decide) (by decide)
  exact ⟨h.1, h.2 2 (by simp), h.2 3 (by simp)⟩

/-! ## C8 -/

theorem existsId_filter_out (prepo : List BlogPost) (id : Nat) :
    PostRepo.existsId (prepo.filter (fun p => ¬ p.id = id)) id = false := by
  unfold PostRepo.existsId PostRepo.find
  have : (prepo.filter (fun p => ¬ p.id = id)).find? (fun p => p.id = id) = none := by
    rw [List.find?_eq_none]
    intro x hx
    have := (List.mem_filter.mp hx).2
    simpa using this
  rw [this]
  rfl

/-- C8: delete_blog_post on an absent id returns false and changes
nothing, so a second call on a just-deleted id also returns false; on a
stored post it removes every comment owned by that post together with
the post itself and returns true, leaving no comment whose owning-post
id refers to the deleted post. -/
theorem delete_blog_post_contract (prepo : List BlogPost) (crepo : List Comment)
    (id : Nat) :
    (PostRepo.existsId prepo id = false →
      BlogPostUseCases.delete_blog_post prepo crepo id = (false, prepo, crepo)) ∧
    (PostRepo.existsId prepo id = true →
      (BlogPostUseCases.delete_blog_post prepo crepo id).1 = true ∧
      PostRepo.existsId
        ((BlogPostUseCases.delete_blog_post prepo crepo id).2.1) id = false ∧
      (∀ c ∈ (BlogPostUseCases.delete_blog_post prepo crepo id).2.2,
        c.blog_post_id ≠ id) ∧
      BlogPostUseCases.delete_blog_post
          ((BlogPostUseCases.delete_blog_post prepo crepo id).2.1)
          ((BlogPostUseCases.delete_blog_post prepo crepo id).2.2) id =
        (false, (BlogPostUseCases.delete_blog_post prepo crepo id).2.1,
                (BlogPostUseCases.delete_blog_post prepo crepo id).2.2)) := by
  constructor
  · intro h
    simp [BlogPostUseCases.delete_blog_post, h]
  · intro h
    have hred : BlogPostUseCases.delete_blog_post prepo crepo id =
        (true, prepo.filter (fun p => ¬ p.id = id),
         CommentRepo.delete_by_blog_post_id crepo id) := by
      simp [BlogPostUseCases.delete_blog_post, PostRepo.delete, h]
    rw [hred]
    refine ⟨rfl, existsId_filter_out prepo id, ?_, ?_⟩
    · intro c hc
      have := (List.mem_filter.mp hc).2
      simpa using this
    · have h2 := existsId_filter_out prepo id
      unfold BlogPostUseCases.delete_blog_post
      rw [h2]
      simp

/-- A concrete comment owned by the concrete post pW. -/
def cC8 : Comment :=
  { content := "on pW", blog_post_id := 4, id := 7, author_name := "Anonymous",
    author_email := "", created_at := 0, updated_at := 0, is_approved := true }

/-- Witness for C8 at the concrete one-post repository with one owned
comment: deleting post 4 returns true and removes the comment, deleting
the absent id 99 returns false and changes nothing. -/
theorem delete_blog_post_contract_witness :
    BlogPostUseCases.delete_blog_post [pW] [cC8] 99 = (false, [pW], [cC8]) ∧
    (BlogPostUseCases.delete_blog_post [pW] [cC8] 4).1 = true ∧
    (∀ c ∈ (BlogPostUseCases.delete_blog_post [pW] [cC8] 4).2.2,
      c.blog_post_id ≠ 4) := by
  refine ⟨(delete_blog_post_contract [pW] [cC8] 99).1 rfl, ?_, ?_⟩
  · exact ((delete_blog_post_contract [pW] [cC8] 4).2 rfl).1
  · exact ((delete_blog_post_contract [pW] [cC8] 4).2 rfl).2.2.1

/-! ## C9 -/

theorem update_title_dichotomy (p : BlogPost) (s : String) (now : Nat) :
    (∃ e, p.update_title s now = .raised e p) ∨
    p.update_title s now = .ok { p with title := s, updated_at := now } := by
  simp only [BlogPost.update_title]
  split
  next hv => right; rfl
  next e hv => left; exact ⟨e, rfl⟩

theorem update_content_dichotomy (p : BlogPost) (s : String) (now : Nat) :
    (∃ e, p.update_content s now = .raised e p) ∨
    p.update_content s now = .ok { p with content := s, updated_at := now } := by
  simp only [BlogPost.update_content]
  split
  next hv => right; rfl
  next e hv => left; exact ⟨e, rfl⟩

theorem add_comment_id_dichotomy (p : BlogPost) (cid now : Nat) :
    (∃ e, p.add_comment_id cid now = .raised e p) ∨
    p.add_comment_id cid now =
      .ok { p with comment_ids := p.comment_ids ++ [cid], updated_at := now } := by
  simp only [BlogPost.add_comment_id]
  split
  · left; exact ⟨_, rfl⟩
  · right; rfl

theorem remove_comment_id_dichotomy (p : BlogPost) (cid now : Nat) :
    (∃ e, p.remove_comment_id cid now = .raised e p) ∨
    p.remove_comment_id cid now =
      .ok { p with comment_ids := p.comment_ids.erase cid, updated_at := now } := by
  simp only [BlogPost.remove_comment_id]
  split
  · right; rfl
  · left; exact ⟨_, rfl⟩

theorem comment_update_content_dichotomy (c : Comment) (s : String) (now : Nat) :
    (∃ e, c.update_content s now = .raised e c) ∨
    c.update_content s now = .ok { c with content := s, updated_at := now } := by
  simp only [Comment.update_content]
  split
  next hv => right; rfl
  next e hv => left; exact ⟨e, rfl⟩

theorem update_author_info_dichotomy (c : Comment) (nm em : Option String)
    (now : Nat) :
    (∃ e, c.update_author_info nm em now = .raised e c) ∨
    c.update_author_info nm em now =
      .ok { c with author_name := nm.getD c.author_name,
                   author_email := em.getD c.author_email, updated_at := now } := by
  cases nm with
  | none =>
    cases em with
    | none => right; rfl
    | some m =>
      rcases hm : Comment.validate_author_email m with e | u2
      · left
        refine ⟨e, ?_⟩
        simp [Comment.update_author_info, hm]
      · right
        simp [Comment.update_author_info, hm]
  | some n =>
    rcases hn : Comment.validate_author_name n with e | u2
    · left
      refine ⟨e, ?_⟩
      cases em <;> simp [Comment.update_author_info, hn]
    · cases em with
      | none =>
        right
        simp [Comment.update_author_info, hn]
      | some m =>
        rcases hm : Comment.validate_author_email m with e | u3
        · left
          refine ⟨e, ?_⟩
          simp [Comment.update_author_info, hn, hm]
        · right
          simp [Comment.update_author_info, hn, hm]

theorem blogpost_make_timestamps {ti co : String} {i ta tb : Nat} {x : BlogPost}
    (h : BlogPost.make ti co i ta tb = .ok x) :
    x.created_at = ta ∧ x.updated_at = tb := by
  simp only [BlogPost.make] at h
  repeat' split at h
  all_goals cases h
  all_goals exact ⟨rfl, rfl⟩

theorem comment_make_timestamps {co an ae : String} {b i ta tb : Nat} {x : Comment}
    (h : Comment.make co b i an ae ta tb = .ok x) :
    x.created_at = ta ∧ x.updated_at = tb := by
  simp only [Comment.make] at h
  repeat' split at h
  all_goals cases h
  all_goals exact ⟨rfl, rfl⟩

theorem user_make_timestamps {un em ph : String} {fn : Option String}
    {ia isu : Bool} {i ta tb : Nat} {x : User}
    (h : User.make un em ph fn ia isu i ta tb = .ok x) :
    x.created_at = ta ∧ x.updated_at = tb := by
  simp only [User.make] at h
  repeat' split at h
  all_goals cases h
  all_goals exact ⟨rfl, rfl⟩

/-- C9: updated_at is at least created_at at construction whenever the
two construction-time clock readings are ordered, and the invariant is
preserved by every entity operation: created_at is never changed, and a
successful mutation sets updated_at to the operation-time clock reading,
which is at least created_at whenever the clock is monotone. -/
theorem timestamps_monotonic
    (p : BlogPost) (c : Comment) (u : User) (s : String)
    (os nm em : Option String) (cid now : Nat) :
    (∀ (ti co : String) (i ta tb : Nat) (x : BlogPost), ta ≤ tb →
      BlogPost.make ti co i ta tb = .ok x → x.created_at ≤ x.updated_at) ∧
    (∀ (co an ae : String) (b i ta tb : Nat) (x : Comment), ta ≤ tb →
      Comment.make co b i an ae ta tb = .ok x → x.created_at ≤ x.updated_at) ∧
    (∀ (un em2 ph : String) (fn : Option String) (ia isu : Bool)
        (i ta tb : Nat) (x : User), ta ≤ tb →
      User.make un em2 ph fn ia isu i ta tb = .ok x →
      x.created_at ≤ x.updated_at) ∧
    (p.created_at ≤ now → p.created_at ≤ p.updated_at →
      ((p.update_title s now).after).created_at = p.created_at ∧
      ((p.update_title s now).after).created_at ≤
        ((p.update_title s now).after).updated_at) ∧
    (p.created_at ≤ now → p.created_at ≤ p.updated_at →
      ((p.update_content s now).after).created_at = p.created_at ∧
      ((p.update_content s now).after).created_at ≤
        ((p.update_content s now).after).updated_at) ∧
    (p.created_at ≤ now → p.created_at ≤ p.updated_at →
      ((p.add_comment_id cid now).after).created_at = p.created_at ∧
      ((p.add_comment_id cid now).after).created_at ≤
        ((p.add_comment_id cid now).after).updated_at) ∧
    (p.created_at ≤ now → p.created_at ≤ p.updated_at →
      ((p.remove_comment_id cid now).after).created_at = p.created_at ∧
      ((p.remove_comment_id cid now).after).created_at ≤
        ((p.remove_comment_id cid now).after).updated_at) ∧
    (c.created_at ≤ now → c.created_at ≤ c.updated_at →
      ((c.update_content s now).after).created_at = c.created_at ∧
      ((c.update_content s now).after).created_at ≤
        ((c.update_content s now).after).updated_at) ∧
    (c.created_at ≤ now → c.created_at ≤ c.updated_at →
      ((c.update_author_info nm em now).after).created_at = c.created_at ∧
      ((c.update_author_info nm em now).after).created_at ≤
        ((c.update_author_info nm em now).after).updated_at) ∧
    (c.created_at ≤ now → c.created_at ≤ c.updated_at →
      (c.approve now).created_at = c.created_at ∧
      (c.approve now).created_at ≤ (c.approve now).updated_at) ∧
    (c.created_at ≤ now → c.created_at ≤ c.updated_at →
      (c.reject now).created_at = c.created_at ∧
      (c.reject now).created_at ≤ (c.reject now).updated_at) ∧
    (u.created_at ≤ now → u.created_at ≤ u.updated_at →
      ((u.update_username s now).after).created_at = u.created_at ∧
      ((u.update_username s now).after).created_at ≤
        ((u.update_username s now).after).updated_at) ∧
    (u.created_at ≤ now → u.created_at ≤ u.updated_at →
      ((u.update_email s now).after).created_at = u.created_at ∧
      ((u.update_email s now).after).created_at ≤
        ((u.update_email s now).after).updated_at) ∧
    (u.created_at ≤ now → u.created_at ≤ u.updated_at →
      ((u.update_password_hash s now).after).created_at = u.created_at ∧
      ((u.update_password_hash s now).after).created_at ≤
        ((u.update_password_hash s now).after).updated_at) ∧
    (u.created_at ≤ now → u.created_at ≤ u.updated_at →
      ((u.update_full_name os now).after).created_at = u.created_at ∧
      ((u.update_full_name os now).after).created_at ≤
        ((u.update_full_name os now).after).updated_at) ∧
    (u.created_at ≤ now → u.created_at ≤ u.updated_at →
      (u.activate now).created_at = u.created_at ∧
      (u.activate now).created_at ≤ (u.activate now).updated_at) ∧
    (u.created_at ≤ now → u.created_at ≤ u.updated_at →
      (u.deactivate now).created_at = u.created_at ∧
      (u.deactivate now).created_at ≤ (u.deactivate now).updated_at) ∧
    (u.created_at ≤ now → u.created_at ≤ u.updated_at →
      ((u.make_superuser now).after).created_at = u.created_at ∧
      ((u.make_superuser now).after).created_at ≤
        ((u.make_superuser now).after).updated_at) ∧
    (u.created_at ≤ now → u.created_at ≤ u.updated_at →
      (u.remove_superuser now).created_at = u.created_at ∧
      (u.remove_superuser now).created_at ≤
        (u.remove_superuser now).updated_at) := by
  refine ⟨?_, ?_, ?_, ?_, ?_, ?_, ?_, ?_, ?_, ?_, ?_, ?_, ?_, ?_, ?_, ?_, ?_,
    ?_, ?_⟩
  · intro ti co i ta tb x hle h
    obtain ⟨h1, h2⟩ := blogpost_make_timestamps h
    rw [h1, h2]; exact hle
  · intro co an ae b i ta tb x hle h
    obtain ⟨h1, h2⟩ := comment_make_timestamps h
    rw [h1, h2]; exact hle
  · intro un em2 ph fn ia isu i ta tb x hle h
    obtain ⟨h1, h2⟩ := user_make_timestamps h
    rw [h1, h2]; exact hle
  · intro h1 h2
    rcases update_title_dichotomy p s now with ⟨e, hr⟩ | hok
    · rw [hr]; exact ⟨rfl, h2⟩
    · rw [hok]; exact ⟨rfl, h1⟩
  · intro h1 h2
    rcases update_content_dichotomy p s now with ⟨e, hr⟩ | hok
    · rw [hr]; exact ⟨rfl, h2⟩
    · rw [hok]; exact ⟨rfl, h1⟩
  · intro h1 h2
    rcases add_comment_id_dichotomy p cid now with ⟨e, hr⟩ | hok
    · rw [hr]; exact ⟨rfl, h2⟩
    · rw [hok]; exact ⟨rfl, h1⟩
  · intro h1 h2
    rcases remove_comment_id_dichotomy p cid now with ⟨e, hr⟩ | hok
    · rw [hr]; exact ⟨rfl, h2⟩
    · rw [hok]; exact ⟨rfl, h1⟩
  · intro h1 h2
    rcases comment_update_content_dichotomy c s now with ⟨e, hr⟩ | hok
    · rw [hr]; exact ⟨rfl, h2⟩
    · rw [hok]; exact ⟨rfl, h1⟩
  · intro h1 h2
    rcases update_author_info_dichotomy c nm em now with ⟨e, hr⟩ | hok
    · rw [hr]; exact ⟨rfl, h2⟩
    · rw [hok]; exact ⟨rfl, h1⟩
  · intro h1 h2
    by_cases hb : c.is_approved
    · rw [show c.approve now = c from by simp [Comment.approve, hb]]
      exact ⟨rfl, h2⟩
    · rw [show c.approve now = { c with is_approved := true, updated_at := now }
        from by simp [Comment.approve, hb]]
      exact ⟨rfl, h1⟩
  · intro h1 h2
    by_cases hb : c.is_approved
    · rw [show c.reject now = { c with is_approved := false, updated_at := now }
        from by simp [Comment.reject, hb]]
      exact ⟨rfl, h1⟩
    · rw [show c.reject now = c from by simp [Comment.reject, hb]]
      exact ⟨rfl, h2⟩
  · intro h1 h2
    rcases update_username_dichotomy u s now with ⟨e, hr⟩ | hok
    · rw [hr]; exact ⟨rfl, h2⟩
    · rw [hok]; exact ⟨rfl, h1⟩
  · intro h1 h2
    rcases update_email_dichotomy u s now with ⟨e, hr⟩ | hok
    · rw [hr]; exact ⟨rfl, h2⟩
    · rw [hok]; exact ⟨rfl, h1⟩
  · intro h1 h2
    rcases update_password_hash_dichotomy u s now with ⟨e, hr⟩ | hok
    · rw [hr]; exact ⟨rfl, h2⟩
    · rw [hok]; exact ⟨rfl, h1⟩
  · intro h1 h2
    rcases update_full_name_dichotomy u os now with ⟨e, hr⟩ | hok
    · rw [hr]; exact ⟨rfl, h2⟩
    · rw [hok]; exact ⟨rfl, h1⟩
  · intro h1 h2
    by_cases hb : u.is_active
    · rw [show u.activate now = u from by simp [User.activate, hb]]
      exact ⟨rfl, h2⟩
    · rw [show u.activate now = { u with is_active := true, updated_at := now }
        from by simp [User.activate, hb]]
      exact ⟨rfl, h1⟩
  · intro h1 h2
    by_cases hb : u.is_active
    · rw [show u.deactivate now = { u with is_active := false, updated_at := now }
        from by simp [User.deactivate, hb]]
      exact ⟨rfl, h1⟩
    · rw [show u.deactivate now = u from by simp [User.deactivate, hb]]
      exact ⟨rfl, h2⟩
  · intro h1 h2
    by_cases ha : u.is_active
    · by_cases hs : u.is_superuser
      · rw [show u.make_superuser now = .ok u from by
          simp [User.make_superuser, ha, hs]]
        exact ⟨rfl, h2⟩
      · rw [show u.make_superuser now =
            .ok { u with is_superuser := true, updated_at := now } from by
          simp [User.make_superuser, ha, hs]]
        exact ⟨rfl, h1⟩
    · rw [show u.make_superuser now =
          .raised "Cannot grant superuser privileges to inactive user" u from by
        simp [User.make_superuser, ha]]
      exact ⟨rfl, h2⟩
  · intro h1 h2
    by_cases hb : u.is_superuser
    · rw [show u.remove_superuser now =
          { u with is_superuser := false, updated_at := now } from by
        simp [User.remove_superuser, hb]]
      exact ⟨rfl, h1⟩
    · rw [show u.remove_superuser now = u from by simp [User.remove_superuser, hb]]
      exact ⟨rfl, h2⟩

/-- Witness for C9 at concrete entities: construction with readings 0 and
1, a title update, an approval flip and an email update at time 3 all
satisfy the timestamp invariant. -/
theorem timestamps_monotonic_witness :
    pC3.created_at ≤ pC3.updated_at ∧
    ((pW.update_title "new title" 3).after).created_at = pW.created_at ∧
    ((pW.update_title "new title" 3).after).created_at ≤
      ((pW.update_title "new title" 3).after).updated_at ∧
    (cW.approve 3).created_at ≤ (cW.approve 3).updated_at ∧
    ((uW.update_email "X@Y.org" 3).after).created_at ≤
      ((uW.update_email "X@Y.org" 3).after).updated_at := by
  have h := timestamps_monotonic pW cW uW "new title" none none none 0 3
  have h13 := timestamps_monotonic pW cW uW "X@Y.org" none none none 0 3
  refine ⟨h.1 "a" "b" 0 0 1 pC3 (by decide) rfl,
    (h.2.2.2.1 (by decide) (by decide)).1,
    (h.2.2.2.1 (by decide) (by decide)).2,
    (h.2.2.2.2.2.2.2.2.2.1 (by decide) (by decide)).2,
    (h13.2.2.2.2.2.2.2.2.2.2.2.2.1 (by decide) (by decide)).2⟩
